import Mathlib

/-!
Verification of the SQLite interface generator (`src/generator.ts`).

The development shallowly embeds the pure core of the generator:
  * the schema intermediate representation (`ColumnInfo`, `Table`),
  * the identifier transformer `pascalCase`,
  * the type mapper `mapSqliteTypeToTypescript`,
  * the per-table source-unit builder `generateUnit` and the
    output mapping `generateInterfaces` (JS `Map.set` semantics),
  * the aggregating manifest `indexContent`,
  * the call-time behaviour of the generated `insert`/`update`
    functions (`insertRuntime`, `updateRuntime`), which build a
    parameterized SQL statement from a partial input record.
-/

/-- One row of `PRAGMA table_info(<table>)`, as consumed by the generator:
`cid` is the zero-based column position, `notnull` is 0/1, `pk` is the
1-based primary-key ordinal (0 when the column is not part of the key). -/
structure ColumnInfo where
  cid : Nat
  name : String
  type : String
  notnull : Nat
  dflt_value : Option String
  pk : Nat
deriving DecidableEq, Repr

/-- A table of the introspected schema: its name (from `sqlite_master`)
together with its `PRAGMA table_info` rows in column-position order. -/
structure Table where
  name : String
  columns : List ColumnInfo
deriving DecidableEq, Repr

/-- JS `Array.prototype.join(sep)`: empty list gives the empty string. -/
def joinSep (sep : String) : List String → String
  | [] => ""
  | [s] => s
  | s :: rest => s ++ sep ++ joinSep sep rest

/-- Concatenation of a list of strings (sequential `+=` appends). -/
def concatAll : List String → String
  | [] => ""
  | s :: rest => s ++ concatAll rest

/-- JS `String.prototype.split(sep)` for a one-character separator, on the
character list: always returns at least one (possibly empty) segment. -/
def splitOnChar (sep : Char) : List Char → List (List Char)
  | [] => [[]]
  | c :: cs =>
    match splitOnChar sep cs with
    | [] => [[]]
    | r :: rs => if c = sep then [] :: r :: rs else (c :: r) :: rs

/-- The segment of a character list before the first occurrence of `sep`
(JS `str.split(sep)[0]`). -/
def firstSegment (sep : Char) : List Char → List Char
  | [] => []
  | c :: cs => if c = sep then [] else c :: firstSegment sep cs

/-- One word of `pascalCase`: `word.charAt(0).toUpperCase() +
word.slice(1).toLowerCase()` (empty words contribute nothing). -/
def capitalizeWord : List Char → List Char
  | [] => []
  | c :: rest => Char.toUpper c :: rest.map Char.toLower

/-- `InterfaceGenerator.pascalCase`: split on underscores, capitalize each
fragment, concatenate with no separator. -/
def pascalCase (str : String) : String :=
  String.mk (((splitOnChar '_' str.data).map capitalizeWord).flatten)

/-- The fixed storage-type table of `mapSqliteTypeToTypescript`
(the JS object literal `typeMap`). -/
def typeMap (key : String) : Option String :=
  if key = "INTEGER" then some "number | bigint"
  else if key = "REAL" then some "number"
  else if key = "TEXT" then some "string"
  else if key = "BLOB" then some "Uint8Array"
  else if key = "BOOLEAN" then some "number"
  else if key = "TIMESTAMP" then some "string"
  else none

/-- `InterfaceGenerator.mapSqliteTypeToTypescript`: take the segment of the
declared type before the first parenthesis, uppercase it, look it up in
`typeMap`, and fall back to `any`. -/
def mapSqliteTypeToTypescript (sqliteType : String) : String :=
  let baseType := String.mk ((firstSegment '(' sqliteType.data).map Char.toUpper)
  (typeMap baseType).getD "any"

/-- The ordering used by `primaryKeys`: ascending primary-key ordinal
(the JS comparator `(a, b) => a.pk - b.pk`). -/
def pkLe (a b : ColumnInfo) : Prop := a.pk ≤ b.pk

instance : DecidableRel pkLe := fun a b => Nat.decLe a.pk b.pk

instance : IsTotal ColumnInfo pkLe := ⟨fun a b => Nat.le_total a.pk b.pk⟩

instance : IsTrans ColumnInfo pkLe := ⟨fun _ _ _ h h' => Nat.le_trans h h'⟩

/-- `columns.filter(col => col.pk > 0).sort((a, b) => a.pk - b.pk)`:
the primary-key columns in ascending primary-key-ordinal order. -/
def primaryKeysOf (columns : List ColumnInfo) : List ColumnInfo :=
  List.insertionSort pkLe (columns.filter (fun col => decide (0 < col.pk)))

/-- A lowercase hexadecimal digit, as produced by JS `JSON.stringify`
control-character escapes. -/
def hexDigit (n : Nat) : Char :=
  if n < 10 then Char.ofNat (48 + n) else Char.ofNat (87 + n)

/-- The escape of one character inside a `JSON.stringify` string literal. -/
def jsonEscapeChar (c : Char) : List Char :=
  if c = '\"' then ['\\', '\"']
  else if c = '\\' then ['\\', '\\']
  else if c.toNat = 8 then ['\\', 'b']
  else if c.toNat = 12 then ['\\', 'f']
  else if c = '\n' then ['\\', 'n']
  else if c.toNat = 13 then ['\\', 'r']
  else if c.toNat = 9 then ['\\', 't']
  else if c.toNat < 32 then
    ['\\', 'u', '0', '0', hexDigit (c.toNat / 16), hexDigit (c.toNat % 16)]
  else [c]

/-- `JSON.stringify` of a string: quoted, with characters escaped. -/
def jsonStringifyString (s : String) : String :=
  "\"" ++ String.mk ((s.data.map jsonEscapeChar).flatten) ++ "\""

/-- `JSON.stringify` of an array of strings, as embedded by the generator
into the generated `insert`/`update` function bodies. -/
def jsonStringifyStrings (names : List String) : String :=
  "[" ++ joinSep "," (names.map jsonStringifyString) ++ "]"

/-- The import line opening every generated unit. -/
def headerText : String := "import \x7b Database \x7d from \"bun:sqlite\";\n\n"

/-- The emitted type annotation of one column: the mapped type, plus a
`| null` alternative unless the column is `NOT NULL` or part of the
primary key (`column.notnull || !!column.pk ? : ' | null'`). -/
def fieldTypeText (c : ColumnInfo) : String :=
  mapSqliteTypeToTypescript c.type ++ (if c.notnull ≠ 0 ∨ c.pk ≠ 0 then "" else " | null")

/-- One field line of the generated interface declaration. -/
def fieldLine (c : ColumnInfo) : String :=
  "    " ++ c.name ++ ": " ++ fieldTypeText c ++ ";\n"

/-- The generated `export interface <Pascal> \x7b ... \x7d` block: one field
per column, in column-position order. -/
def typeInterface (t : Table) : String :=
  "export interface " ++ pascalCase t.name ++ " \x7b\n"
    ++ concatAll (t.columns.map fieldLine)
    ++ "\x7d\n\n"

/-- The generated `insert<Pascal>` function body (lines 82-91 of the
source): the full column-name list is embedded as a JSON literal and the
present columns are selected at call time. -/
def insertFnText (t : Table) : String :=
  let P := pascalCase t.name
  let n := t.name
  "export function insert" ++ P ++ "(db: Database, " ++ n ++ ": Partial<" ++ P ++ ">): "
      ++ P ++ " \x7b\n"
    ++ "    const columns = " ++ jsonStringifyStrings (t.columns.map (fun col => col.name)) ++ ";\n"
    ++ "    const insertColumns = columns.filter(col => " ++ n ++ "[col as keyof typeof " ++ n
      ++ "] !== undefined);\n"
    ++ "    const insertValues = insertColumns.map(col => " ++ n ++ "[col as keyof typeof " ++ n
      ++ "]);\n"
    ++ "    const placeholders = insertColumns.map(() => \x27?\x27).join(\x27, \x27);\n"
    ++ "    const sql = \x60INSERT INTO " ++ n
      ++ " ($\x7binsertColumns.join(\x27, \x27)\x7d) VALUES ($\x7bplaceholders\x7d) RETURNING *\x60;\n"
    ++ "    const stmt = db.prepare<" ++ P ++ ", any[]>(sql);\n"
    ++ "    const result = stmt.get(insertValues);\n"
    ++ "    return result as " ++ P ++ ";\n"
    ++ "\x7d\n\n"

/-- The generated `getAll<Pascal>` function body (lines 94-97). -/
def getAllFnText (t : Table) : String :=
  let P := pascalCase t.name
  "export function getAll" ++ P ++ "(db: Database): " ++ P ++ "[] \x7b\n"
    ++ "    const stmt = db.prepare<" ++ P ++ ", []>(\x27SELECT * FROM " ++ t.name ++ "\x27);\n"
    ++ "    return stmt.all() as " ++ P ++ "[];\n"
    ++ "\x7d\n\n"

/-- The per-key-column parameter declarations (`pkParams` in the source). -/
def pkParamList (pks : List ColumnInfo) : List String :=
  pks.map (fun pk => pk.name ++ ": " ++ mapSqliteTypeToTypescript pk.type)

/-- The per-key-column equality atoms of the WHERE clause (`pkWhere`). -/
def pkWhereList (pks : List ColumnInfo) : List String :=
  pks.map (fun pk => pk.name ++ " = ?")

/-- The mapped type of `primaryKeys[0]` (only consulted when the primary
key is non-empty, as in the guarded source block). -/
def firstPkTsType : List ColumnInfo → String
  | [] => ""
  | p :: _ => mapSqliteTypeToTypescript p.type

/-- The generated `get<Pascal>` function body (lines 104-108). -/
def getFnText (t : Table) : String :=
  let P := pascalCase t.name
  let pks := primaryKeysOf t.columns
  "export function get" ++ P ++ "(db: Database, " ++ joinSep ", " (pkParamList pks) ++ "): "
      ++ P ++ " | null \x7b\n"
    ++ "    const stmt = db.prepare<" ++ P ++ ", (" ++ firstPkTsType pks
      ++ ")[]>(\x27SELECT * FROM " ++ t.name ++ " WHERE " ++ joinSep " AND " (pkWhereList pks)
      ++ "\x27);\n"
    ++ "    return stmt.get(" ++ joinSep ", " (pks.map (fun pk => pk.name)) ++ ") as " ++ P
      ++ " | null;\n"
    ++ "\x7d\n\n"

/-- The generated `update<Pascal>` function body (lines 110-121). -/
def updateFnText (t : Table) : String :=
  let P := pascalCase t.name
  let n := t.name
  let pks := primaryKeysOf t.columns
  "export function update" ++ P ++ "(db: Database, " ++ joinSep ", " (pkParamList pks) ++ ", "
      ++ n ++ ": Partial<" ++ P ++ ">): " ++ P ++ " | null \x7b\n"
    ++ "    const columns = " ++ jsonStringifyStrings (t.columns.map (fun col => col.name)) ++ ";\n"
    ++ "    const updateColumns = columns.filter(col => " ++ n ++ "[col as keyof typeof " ++ n
      ++ "] !== undefined && !" ++ jsonStringifyStrings (pks.map (fun pk => pk.name))
      ++ ".includes(col));\n"
    ++ "    if (updateColumns.length === 0) return get" ++ P ++ "(db, "
      ++ joinSep ", " (pks.map (fun pk => pk.name)) ++ ");\n"
    ++ "    const setClause = updateColumns.map(col => \x60$\x7bcol\x7d = ?\x60).join(\x27, \x27);\n"
    ++ "    const updateValues = updateColumns.map(col => " ++ n ++ "[col as keyof typeof " ++ n
      ++ "]);\n"
    ++ "    const sql = \x60UPDATE " ++ n ++ " SET $\x7bsetClause\x7d WHERE "
      ++ joinSep " AND " (pkWhereList pks) ++ " RETURNING *\x60;\n"
    ++ "    const stmt = db.prepare<" ++ P ++ ", any[]>(sql);\n"
    ++ "    const result = stmt.get([...updateValues, "
      ++ joinSep ", " (pks.map (fun pk => pk.name)) ++ "]);\n"
    ++ "    return result as " ++ P ++ " | null;\n"
    ++ "\x7d\n\n"

/-- The generated `delete<Pascal>` function body (lines 123-127). -/
def deleteFnText (t : Table) : String :=
  let P := pascalCase t.name
  let pks := primaryKeysOf t.columns
  "export function delete" ++ P ++ "(db: Database, " ++ joinSep ", " (pkParamList pks)
      ++ "): void \x7b\n"
    ++ "    const stmt = db.prepare<" ++ P ++ ", (" ++ firstPkTsType pks
      ++ ")[]>(\x27DELETE FROM " ++ t.name ++ " WHERE " ++ joinSep " AND " (pkWhereList pks)
      ++ "\x27);\n"
    ++ "    stmt.run(" ++ joinSep ", " (pks.map (fun pk => pk.name)) ++ ");\n"
    ++ "\x7d\n"

/-- The full generated unit of one table (`interfaceContent`): header,
interface, insert and read-all functions, and - only when the primary key
is non-empty - the get/update/delete functions. -/
def generateUnit (t : Table) : String :=
  headerText ++ typeInterface t ++ insertFnText t ++ getAllFnText t
    ++ (if 0 < (primaryKeysOf t.columns).length
        then getFnText t ++ updateFnText t ++ deleteFnText t
        else "")

/-- JS `Map.set` on an insertion-ordered association list: an existing key
keeps its position and has its value replaced, a new key is appended. -/
def mapSet (m : List (String × String)) (k v : String) : List (String × String) :=
  if m.any (fun p => p.1 == k)
  then m.map (fun p => if p.1 == k then (k, v) else p)
  else m ++ [(k, v)]

/-- `InterfaceGenerator.generateInterfaces`: one `Map.set` per table, keyed
by the raw table name. -/
def generateInterfaces (tables : List Table) : List (String × String) :=
  tables.foldl (fun m t => mapSet m t.name (generateUnit t)) []

/-- The aggregating `index.ts` manifest: one `export * from` line per
generated unit, in mapping order. -/
def indexContent (interfaces : List (String × String)) : String :=
  joinSep "\n" (interfaces.map (fun p => "export * from \x27./" ++ p.1 ++ "\x27;"))

/-- One full generator run: the per-table mapping plus the manifest. -/
def generatorRun (tables : List Table) : List (String × String) × String :=
  let interfaces := generateInterfaces tables
  (interfaces, indexContent interfaces)

/-- A JS value as seen by the generated record-handling code: the marker
`undef` stands for `undefined` (a missing field reads as `undef`). -/
inductive JsValue where
  | undef
  | nullv
  | intv (n : Int)
  | strv (s : String)
deriving DecidableEq, Repr

/-- A partial record passed to a generated `insert`/`update` function:
field-name/value pairs. -/
abbrev JsRecord := List (String × JsValue)

/-- JS property read `record[col]`: `undefined` when the field is absent. -/
def getField (rec : JsRecord) (key : String) : JsValue :=
  match rec with
  | [] => JsValue.undef
  | (k, v) :: rest => if k = key then v else getField rest key

/-- A parameterized SQL statement as built and executed by the generated
code: the statement text and the bound values in binding order. -/
structure Statement where
  sql : String
  params : List JsValue
deriving DecidableEq, Repr

/-- Call-time behaviour of the generated `insert<Pascal>` function: filter
the embedded column list down to the fields present (not `undefined`) in
the input, and build one placeholder per kept column. -/
def insertRuntime (t : Table) (rec : JsRecord) : Statement :=
  let columns := t.columns.map (fun col => col.name)
  let insertColumns := columns.filter (fun col => getField rec col != JsValue.undef)
  let insertValues := insertColumns.map (fun col => getField rec col)
  let placeholders := joinSep ", " (insertColumns.map (fun _ => "?"))
  ⟨"INSERT INTO " ++ t.name ++ " (" ++ joinSep ", " insertColumns ++ ") VALUES ("
     ++ placeholders ++ ") RETURNING *",
   insertValues⟩

/-- The columns the generated `update<Pascal>` function is willing to set:
present in the input, not `undefined`, and not a primary-key column. -/
def updateColumnsOf (t : Table) (rec : JsRecord) : List String :=
  let columns := t.columns.map (fun col => col.name)
  let pkNames := (primaryKeysOf t.columns).map (fun pk => pk.name)
  columns.filter (fun col => getField rec col != JsValue.undef && !(pkNames.contains col))

/-- Outcome of a generated `update<Pascal>` call: either the degenerate
no-op that returns `get<Pascal>(db, keys...)` without issuing a statement,
or an executed UPDATE statement. -/
inductive UpdateResult where
  | getFallback (keyValues : List JsValue)
  | statement (stmt : Statement)
deriving DecidableEq, Repr

/-- Call-time behaviour of the generated `update<Pascal>` function. -/
def updateRuntime (t : Table) (keyValues : List JsValue) (rec : JsRecord) : UpdateResult :=
  let updateColumns := updateColumnsOf t rec
  if updateColumns.length = 0 then UpdateResult.getFallback keyValues
  else
    let setClause := joinSep ", " (updateColumns.map (fun col => col ++ " = ?"))
    let updateValues := updateColumns.map (fun col => getField rec col)
    let pkWhere := joinSep " AND " (pkWhereList (primaryKeysOf t.columns))
    UpdateResult.statement
      ⟨"UPDATE " ++ t.name ++ " SET " ++ setClause ++ " WHERE " ++ pkWhere ++ " RETURNING *",
       updateValues ++ keyValues⟩

def usersTable : Table :=
  ⟨"users",
    [⟨0, "id", "INTEGER", 0, none, 1⟩,
     ⟨1, "username", "TEXT", 1, none, 0⟩,
     ⟨2, "bio", "TEXT", 0, none, 0⟩]⟩

def logsTable : Table :=
  ⟨"logs", [⟨0, "msg", "TEXT", 0, none, 0⟩, ⟨1, "level", "INTEGER", 0, none, 0⟩]⟩

def orderItemsTable : Table :=
  ⟨"order_items",
    [⟨0, "order_id", "INTEGER", 0, none, 1⟩,
     ⟨1, "item_id", "INTEGER", 0, none, 2⟩,
     ⟨2, "qty", "INTEGER", 1, none, 0⟩]⟩

/-- `sub` occurs as a contiguous substring of `hay`. -/
def occursIn (sub hay : String) : Prop :=
  ∃ l r : List Char, hay.data = l ++ sub.data ++ r

theorem data_append (a b : String) : (a ++ b).data = a.data ++ b.data := rfl

theorem str_ext (a b : String) (h : a.data = b.data) : a = b := by
  cases a; cases b; exact congrArg String.mk h

theorem str_append_empty (s : String) : s ++ "" = s := by
  apply str_ext; simp [data_append]

theorem str_append_assoc (a b c : String) : a ++ b ++ c = a ++ (b ++ c) := by
  apply str_ext; simp [data_append]

theorem occursIn_mono (pre post sub hay : String) (h : occursIn sub hay) :
    occursIn sub (pre ++ hay ++ post) := by
  obtain ⟨l, r, hl⟩ := h
  exact ⟨pre.data ++ l, r ++ post.data, by simp [data_append, hl]⟩

theorem occursIn_self (s : String) : occursIn s s := ⟨[], [], by simp⟩

theorem occursIn_appendl (sub hay s : String) (h : occursIn sub hay) :
    occursIn sub (hay ++ s) := by
  obtain ⟨l, r, hl⟩ := h
  exact ⟨l, r ++ s.data, by simp [data_append, hl]⟩

theorem occursIn_appendr (sub hay s : String) (h : occursIn sub hay) :
    occursIn sub (s ++ hay) := by
  obtain ⟨l, r, hl⟩ := h
  exact ⟨s.data ++ l, r, by simp [data_append, hl]⟩

theorem occursIn_concatAll {α : Type} (f : α → String) (l : List α) (x : α) (hx : x ∈ l) :
    occursIn (f x) (concatAll (l.map f)) := by
  induction l with
  | nil => cases hx
  | cons a as ih =>
    rcases List.mem_cons.mp hx with h | h
    · subst h
      exact ⟨[], (concatAll (as.map f)).data, by simp [concatAll, data_append]⟩
    · obtain ⟨l', r', h'⟩ := ih h
      exact ⟨(f a).data ++ l', r', by simp [concatAll, data_append, h']⟩

/-- Claim C1: a generated unit contains the get-by-key, update-by-key and
delete-by-key function bodies when the table's primary key is non-empty,
and a table with no primary-key column receives a unit that is exactly
the header line, the type declaration, the create (insert) function and
the read-all function - no get/update/delete function. -/
theorem claim_C1 (t : Table) :
    (0 < (primaryKeysOf t.columns).length →
      occursIn (getFnText t) (generateUnit t)
        ∧ occursIn (updateFnText t) (generateUnit t)
        ∧ occursIn (deleteFnText t) (generateUnit t))
    ∧ ((primaryKeysOf t.columns).length = 0 →
      generateUnit t = headerText ++ typeInterface t ++ insertFnText t ++ getAllFnText t) := by
  constructor
  · intro h
    have hg : generateUnit t
        = headerText ++ typeInterface t ++ insertFnText t ++ getAllFnText t
          ++ (getFnText t ++ updateFnText t ++ deleteFnText t) := by
      unfold generateUnit
      rw [if_pos h]
    refine ⟨?_, ?_, ?_⟩
    · exact ⟨(headerText ++ typeInterface t ++ insertFnText t ++ getAllFnText t).data,
        (updateFnText t ++ deleteFnText t).data, by rw [hg]; simp [data_append]⟩
    · exact ⟨(headerText ++ typeInterface t ++ insertFnText t ++ getAllFnText t
          ++ getFnText t).data,
        (deleteFnText t).data, by rw [hg]; simp [data_append]⟩
    · exact ⟨(headerText ++ typeInterface t ++ insertFnText t ++ getAllFnText t
          ++ getFnText t ++ updateFnText t).data,
        [], by rw [hg]; simp [data_append]⟩
  · intro h
    unfold generateUnit
    rw [if_neg (by omega), str_append_empty]

/-- Claim C1 witness: the no-primary-key table `logs` receives exactly
header, type, insert and read-all, while `users` (primary key `id`)
additionally receives the get function. -/
theorem claim_C1_witness :
    generateUnit logsTable
        = headerText ++ typeInterface logsTable ++ insertFnText logsTable
          ++ getAllFnText logsTable
      ∧ occursIn (getFnText usersTable) (generateUnit usersTable) :=
  ⟨(claim_C1 logsTable).2 (by decide), ((claim_C1 usersTable).1 (by decide)).1⟩

/-- Claim C3: the emitted field for a column of the generated type
declaration is the bare mapped type (non-nullable) exactly when the
column is declared NOT NULL or is part of the primary key, and carries a
`| null` alternative exactly otherwise; the field line occurs in the
table's generated interface declaration. -/
theorem claim_C3 (t : Table) (c : ColumnInfo) (h : c ∈ t.columns) :
    occursIn (fieldLine c) (typeInterface t)
    ∧ (fieldTypeText c = mapSqliteTypeToTypescript c.type ↔ (c.notnull ≠ 0 ∨ 0 < c.pk))
    ∧ (fieldTypeText c = mapSqliteTypeToTypescript c.type ++ " | null"
        ↔ ¬(c.notnull ≠ 0 ∨ 0 < c.pk)) := by
  have hne : ∀ s : String, ¬ s ++ " | null" = s := by
    intro s heq
    have hlen := congrArg (fun x => x.data.length) heq
    have h7 : (" | null" : String).data.length = 7 := rfl
    simp [data_append, List.length_append, h7] at hlen
  have hcond : (c.notnull ≠ 0 ∨ c.pk ≠ 0) ↔ (c.notnull ≠ 0 ∨ 0 < c.pk) := by omega
  refine ⟨?_, ?_, ?_⟩
  · unfold typeInterface
    exact occursIn_mono _ _ _ _ (occursIn_concatAll fieldLine t.columns c h)
  · unfold fieldTypeText
    by_cases hc : (c.notnull ≠ 0 ∨ c.pk ≠ 0)
    · rw [if_pos hc, str_append_empty]
      simpa using hcond.mp hc
    · rw [if_neg hc]
      constructor
      · intro heq
        exact absurd heq (hne _)
      · intro hx
        exact absurd (hcond.mpr hx) hc
  · unfold fieldTypeText
    by_cases hc : (c.notnull ≠ 0 ∨ c.pk ≠ 0)
    · rw [if_pos hc, str_append_empty]
      constructor
      · intro heq
        exact absurd heq.symm (hne _)
      · intro hx
        exact absurd (hcond.mp hc) hx
    · rw [if_neg hc]
      constructor
      · intro _
        exact fun hx => hc (hcond.mpr hx)
      · intro _
        rfl

/-- Claim C3 witness: in the `users` table, `bio` (no NOT NULL, not in the
primary key) gets a nullable annotation, and its line occurs in the
interface text. -/
theorem claim_C3_witness :
    occursIn (fieldLine ⟨2, "bio", "TEXT", 0, none, 0⟩) (typeInterface usersTable)
      ∧ (fieldTypeText ⟨2, "bio", "TEXT", 0, none, 0⟩
          = mapSqliteTypeToTypescript "TEXT" ++ " | null"
            ↔ ¬((0 : Nat) ≠ 0 ∨ 0 < (0 : Nat))) :=
  ⟨(claim_C3 usersTable ⟨2, "bio", "TEXT", 0, none, 0⟩ (by decide)).1,
   (claim_C3 usersTable ⟨2, "bio", "TEXT", 0, none, 0⟩ (by decide)).2.2⟩

/-- Claim C4: the generated create (insert) function inserts exactly the
columns whose field is present and not undefined, in the table's
column-position order (the kept list is a sublist of the full
column-name list), with the bound values in the same order and one
placeholder per present column. -/
theorem claim_C4 (t : Table) (rec : JsRecord) :
    let cols := t.columns.map (fun col => col.name)
    let present := cols.filter (fun col => getField rec col != JsValue.undef)
    (insertRuntime t rec).params = present.map (fun col => getField rec col)
    ∧ present.Sublist cols
    ∧ (∀ c : String, c ∈ present ↔ c ∈ cols ∧ getField rec c ≠ JsValue.undef)
    ∧ (insertRuntime t rec).sql
        = "INSERT INTO " ++ t.name ++ " (" ++ joinSep ", " present ++ ") VALUES ("
          ++ joinSep ", " (present.map (fun _ => "?")) ++ ") RETURNING *"
    ∧ (present.map (fun _ => "?")).length = (insertRuntime t rec).params.length := by
  intro cols present
  refine ⟨rfl, List.filter_sublist _, ?_, rfl, ?_⟩
  · intro c
    simp [present, cols, List.mem_filter]
  · simp [insertRuntime, present, cols]

/-- Claim C10: when every column field of the input record is absent or
undefined, the generated insert function still builds the degenerate
statement with an empty column list and zero placeholders. -/
theorem claim_C10 (t : Table) (rec : JsRecord)
    (h : ∀ c ∈ t.columns.map (fun col => col.name), getField rec c = JsValue.undef) :
    insertRuntime t rec
      = ⟨"INSERT INTO " ++ t.name ++ " () VALUES () RETURNING *", []⟩ := by
  have hfil : (t.columns.map (fun col => col.name)).filter
      (fun col => getField rec col != JsValue.undef) = [] := by
    rw [List.filter_eq_nil_iff]
    intro a ha
    simp [h a ha]
  have tail_eq : (" (" : String) ++ (") VALUES (" ++ ") RETURNING *")
      = " () VALUES () RETURNING *" := by decide
  simp only [insertRuntime, hfil]
  congr 1
  · show "INSERT INTO " ++ t.name ++ " (" ++ joinSep ", " [] ++ ") VALUES ("
        ++ joinSep ", " (List.map (fun _ => "?") []) ++ ") RETURNING *"
      = "INSERT INTO " ++ t.name ++ " () VALUES () RETURNING *"
    show "INSERT INTO " ++ t.name ++ " (" ++ "" ++ ") VALUES (" ++ "" ++ ") RETURNING *"
      = "INSERT INTO " ++ t.name ++ " () VALUES () RETURNING *"
    rw [str_append_empty ("INSERT INTO " ++ t.name ++ " (")]
    rw [str_append_empty ("INSERT INTO " ++ t.name ++ " (" ++ ") VALUES (")]
    rw [str_append_assoc ("INSERT INTO " ++ t.name) " (" ") VALUES ("]
    rw [str_append_assoc ("INSERT INTO " ++ t.name) (" (" ++ ") VALUES (") ") RETURNING *"]
    rw [str_append_assoc " (" ") VALUES (" ") RETURNING *", tail_eq]

/-- Claim C10 witness: inserting the empty record into `users` builds
`INSERT INTO users () VALUES () RETURNING *` with no bound values. -/
theorem claim_C10_witness :
    insertRuntime usersTable []
      = ⟨"INSERT INTO users () VALUES () RETURNING *", []⟩ := by
  rw [claim_C10 usersTable [] (by decide)]
  decide

/-- Claim C5: the generated update-by-key function treats a column as
eligible exactly when its field is present, not undefined, and not a
primary-key column; when the eligible set is empty it issues no mutation
statement and degenerates to get-by-key on the given key. -/
theorem claim_C5 (t : Table) (kv : List JsValue) (rec : JsRecord) :
    (∀ c : String,
      c ∈ updateColumnsOf t rec
        ↔ c ∈ t.columns.map (fun col => col.name)
            ∧ getField rec c ≠ JsValue.undef
            ∧ c ∉ (primaryKeysOf t.columns).map (fun pk => pk.name))
    ∧ (updateColumnsOf t rec = []
        → updateRuntime t kv rec = UpdateResult.getFallback kv) := by
  constructor
  · intro c
    simp [updateColumnsOf, List.mem_filter, List.contains, List.elem_iff, and_assoc]
  · intro h
    simp only [updateRuntime, h]
    rfl

/-- Claim C5 witness: updating `users` with a record whose only field is
the primary-key field `id` issues no statement and falls back to
get-by-key. -/
theorem claim_C5_witness :
    updateRuntime usersTable [JsValue.intv 1] [("id", JsValue.intv 1)]
      = UpdateResult.getFallback [JsValue.intv 1] :=
  (claim_C5 usersTable [JsValue.intv 1] [("id", JsValue.intv 1)]).2 (by decide)

/-- Claim C7: with a non-empty eligible set, the generated update-by-key
function builds the SET clause over the eligible columns in filtered
column-position order (a sublist of the column list) and binds all SET
values first, then the key values, matching the SET placeholders followed
by the WHERE placeholders. -/
theorem claim_C7 (t : Table) (kv : List JsValue) (rec : JsRecord)
    (h : updateColumnsOf t rec ≠ []) :
    (updateColumnsOf t rec).Sublist (t.columns.map (fun col => col.name))
    ∧ updateRuntime t kv rec = UpdateResult.statement
        ⟨"UPDATE " ++ t.name ++ " SET "
            ++ joinSep ", " ((updateColumnsOf t rec).map (fun col => col ++ " = ?"))
            ++ " WHERE " ++ joinSep " AND " (pkWhereList (primaryKeysOf t.columns))
            ++ " RETURNING *",
          (updateColumnsOf t rec).map (fun col => getField rec col) ++ kv⟩ := by
  refine ⟨List.filter_sublist _, ?_⟩
  simp only [updateRuntime]
  rw [if_neg (fun hh => h (List.length_eq_zero.mp hh))]

/-- Claim C7 witness: updating `order_items` (composite key) with field
`qty` builds `UPDATE order_items SET qty = ? WHERE order_id = ? AND
item_id = ? RETURNING *` and binds the SET value before the two key
values. -/
theorem claim_C7_witness :
    updateRuntime orderItemsTable [JsValue.intv 1, JsValue.intv 2] [("qty", JsValue.intv 3)]
      = UpdateResult.statement
          ⟨"UPDATE order_items SET qty = ? WHERE order_id = ? AND item_id = ? RETURNING *",
           [JsValue.intv 3, JsValue.intv 1, JsValue.intv 2]⟩ := by
  rw [(claim_C7 orderItemsTable [JsValue.intv 1, JsValue.intv 2] [("qty", JsValue.intv 3)]
    (by decide)).2]
  decide

/-- Claim C6: the primary-key sequence used by every keyed operation is
the pk-positive columns sorted by ascending primary-key ordinal; the
key-parameter list and the WHERE-clause atom list both have exactly one
entry per key column and list them in that same order, and the joined
parameter list occurs in each of the generated get/update/delete
function texts. -/
theorem claim_C6 (t : Table) (h : primaryKeysOf t.columns ≠ []) :
    (primaryKeysOf t.columns).Sorted pkLe
    ∧ (primaryKeysOf t.columns).Perm (t.columns.filter (fun col => decide (0 < col.pk)))
    ∧ (pkParamList (primaryKeysOf t.columns)).length = (primaryKeysOf t.columns).length
    ∧ (pkWhereList (primaryKeysOf t.columns)).length = (primaryKeysOf t.columns).length
    ∧ (∀ i : Nat,
        (pkParamList (primaryKeysOf t.columns)).get? i
          = ((primaryKeysOf t.columns).get? i).map
              (fun pk => pk.name ++ ": " ++ mapSqliteTypeToTypescript pk.type)
        ∧ (pkWhereList (primaryKeysOf t.columns)).get? i
          = ((primaryKeysOf t.columns).get? i).map (fun pk => pk.name ++ " = ?"))
    ∧ occursIn (joinSep ", " (pkParamList (primaryKeysOf t.columns))) (getFnText t)
    ∧ occursIn (joinSep ", " (pkParamList (primaryKeysOf t.columns))) (updateFnText t)
    ∧ occursIn (joinSep ", " (pkParamList (primaryKeysOf t.columns))) (deleteFnText t) := by
  refine ⟨List.sorted_insertionSort pkLe _, List.perm_insertionSort pkLe _, by
      simp [pkParamList], by simp [pkWhereList], ?_, ?_, ?_, ?_⟩
  · intro i
    exact ⟨List.get?_map _ _ _, List.get?_map _ _ _⟩
  · simp only [getFnText]
    repeat
      first
      | exact occursIn_appendr _ _ _ (occursIn_self _)
      | apply occursIn_appendl
  · simp only [updateFnText]
    repeat
      first
      | exact occursIn_appendr _ _ _ (occursIn_self _)
      | apply occursIn_appendl
  · simp only [deleteFnText]
    repeat
      first
      | exact occursIn_appendr _ _ _ (occursIn_self _)
      | apply occursIn_appendl

/-- Claim C6 witness: `order_items` has composite key `(order_id, item_id)`
in ordinal order, with one parameter and one WHERE atom per key column. -/
theorem claim_C6_witness :
    (primaryKeysOf orderItemsTable.columns).Perm
        (orderItemsTable.columns.filter (fun col => decide (0 < col.pk)))
      ∧ (pkParamList (primaryKeysOf orderItemsTable.columns)).length
          = (primaryKeysOf orderItemsTable.columns).length
      ∧ (pkWhereList (primaryKeysOf orderItemsTable.columns)).length
          = (primaryKeysOf orderItemsTable.columns).length :=
  ⟨(claim_C6 orderItemsTable (by decide)).2.1,
   (claim_C6 orderItemsTable (by decide)).2.2.1,
   (claim_C6 orderItemsTable (by decide)).2.2.2.1⟩

theorem firstSegment_of_not_mem (sep : Char) (xs : List Char) (h : sep ∉ xs) :
    firstSegment sep xs = xs := by
  induction xs with
  | nil => rfl
  | cons c cs ih =>
    have hc : ¬ c = sep := fun e => h (e ▸ List.mem_cons_self c cs)
    simp only [firstSegment, if_neg hc]
    rw [ih (fun hm => h (List.mem_cons_of_mem _ hm))]

theorem firstSegment_append_sep (sep : Char) (xs ys : List Char) (h : sep ∉ xs) :
    firstSegment sep (xs ++ sep :: ys) = xs := by
  induction xs with
  | nil => simp [firstSegment]
  | cons c cs ih =>
    have hc : ¬ c = sep := fun e => h (e ▸ List.mem_cons_self c cs)
    simp only [List.cons_append, firstSegment, if_neg hc]
    exact congrArg (fun l => c :: l) (ih (fun hm => h (List.mem_cons_of_mem _ hm)))

/-- Claim C2 counterexample: the fixed table has no entry for VARCHAR, so
`mapType("VARCHAR(255)")` is the fallback `any`, not the string type the
claim asserts. -/
theorem claim_C2_counterexample :
    mapSqliteTypeToTypescript "VARCHAR(255)" = "any"
      ∧ mapSqliteTypeToTypescript "VARCHAR(255)" ≠ "string" := by
  constructor
  · decide
  · decide

/-- Claim C2 (amended): the type mapper takes the segment before the first
parenthesis, uppercases it, and maps it by the fixed table with the
universal fallback `any` and no error for unknown types; `INTEGER` (in
either case) maps to the integer-or-bigint union, while `VARCHAR(255)` -
the parenthesized qualifier being stripped - and the unknown `JSONB` both
map to the fallback `any`. -/
theorem claim_C2 :
    (∀ s q : String, '(' ∉ s.data →
        mapSqliteTypeToTypescript (s ++ "(" ++ q) = mapSqliteTypeToTypescript s)
    ∧ mapSqliteTypeToTypescript "INTEGER" = "number | bigint"
    ∧ mapSqliteTypeToTypescript "integer" = "number | bigint"
    ∧ mapSqliteTypeToTypescript "VARCHAR(255)" = "any"
    ∧ mapSqliteTypeToTypescript "JSONB" = "any"
    ∧ (∀ s : String,
        mapSqliteTypeToTypescript s = "number | bigint"
        ∨ mapSqliteTypeToTypescript s = "number"
        ∨ mapSqliteTypeToTypescript s = "string"
        ∨ mapSqliteTypeToTypescript s = "Uint8Array"
        ∨ mapSqliteTypeToTypescript s = "any") := by
  refine ⟨?_, by decide, by decide, by decide, by decide, ?_⟩
  · intro s q hs
    have hlit : ("(" : String).data = ['('] := rfl
    have hdata : (s ++ "(" ++ q).data = s.data ++ '(' :: q.data := by
      simp [data_append, hlit]
    simp only [mapSqliteTypeToTypescript]
    rw [hdata, firstSegment_append_sep '(' s.data q.data hs,
      firstSegment_of_not_mem '(' s.data hs]
  · intro s
    simp only [mapSqliteTypeToTypescript]
    rcases h : typeMap (String.mk ((firstSegment '(' s.data).map Char.toUpper)) with _ | v
    · simp
    · simp only [typeMap] at h
      repeat' split at h
      all_goals simp_all

/-- Claim C2 witness: stripping a parenthesized qualifier from a
parenthesis-free base type does not change the mapped type. -/
theorem claim_C2_witness :
    mapSqliteTypeToTypescript ("VARCHAR" ++ "(" ++ "255)")
      = mapSqliteTypeToTypescript "VARCHAR" :=
  claim_C2.1 "VARCHAR" "255)" (by decide)

theorem mapSet_append (m : List (String × String)) (k v : String)
    (h : ∀ p ∈ m, p.1 ≠ k) : mapSet m k v = m ++ [(k, v)] := by
  unfold mapSet
  rw [if_neg]
  intro hc
  rw [List.any_eq_true] at hc
  obtain ⟨p, hp, he⟩ := hc
  exact h p hp (by simpa using he)

theorem generateInterfaces_foldl (tables : List Table) (m : List (String × String))
    (h : ((m.map (fun p => p.1)) ++ tables.map (fun t => t.name)).Nodup) :
    tables.foldl (fun acc t => mapSet acc t.name (generateUnit t)) m
      = m ++ tables.map (fun t => (t.name, generateUnit t)) := by
  induction tables generalizing m with
  | nil => simp
  | cons t ts ih =>
    obtain ⟨hA, hB, hdisj⟩ := List.nodup_append.mp h
    have hstep : mapSet m t.name (generateUnit t) = m ++ [(t.name, generateUnit t)] := by
      apply mapSet_append
      intro p hp he
      exact hdisj (List.mem_map_of_mem (fun p => p.1) hp) (he ▸ List.mem_cons_self _ _)
    rw [List.foldl_cons, hstep, ih (m ++ [(t.name, generateUnit t)]) (by
      simpa [List.append_assoc] using h)]
    simp

/-- Claim C8 (amended): distinct table names never overwrite each other in
the generator's output mapping - the mapping is keyed by the raw table
name, so a schema with pairwise-distinct table names yields exactly one
entry per table, even when two names transform to the same type name;
the collision is not detected and surfaces only as identically-named
exported declarations across units. -/
theorem claim_C8 (tables : List Table) (h : (tables.map (fun t => t.name)).Nodup) :
    generateInterfaces tables = tables.map (fun t => (t.name, generateUnit t)) := by
  have hfold := generateInterfaces_foldl tables [] (by simpa using h)
  simpa [generateInterfaces] using hfold

def tableAB : Table := ⟨"a_b", [⟨0, "x", "TEXT", 0, none, 0⟩]⟩

def tableAB2 : Table := ⟨"a__b", [⟨0, "x", "TEXT", 0, none, 0⟩]⟩

/-- Claim C8 counterexample: `a_b` and `a__b` are distinct table names
that transform to the same type name `AB`, yet neither generated unit
overwrites the other in the output mapping - both entries are present,
keyed by the raw table names. -/
theorem claim_C8_counterexample :
    pascalCase "a_b" = pascalCase "a__b"
    ∧ "a_b" ≠ "a__b"
    ∧ generateInterfaces [tableAB, tableAB2]
        = [("a_b", generateUnit tableAB), ("a__b", generateUnit tableAB2)] :=
  ⟨by decide, by decide, rfl⟩

/-- Claim C8 witness: the colliding pair keeps one mapping entry per
table. -/
theorem claim_C8_witness :
    generateInterfaces [tableAB, tableAB2]
      = [tableAB, tableAB2].map (fun t => (t.name, generateUnit t)) :=
  claim_C8 [tableAB, tableAB2] (by decide)

/-- Claim C9: generation is deterministic - two runs of the generator on
the same schema produce identical per-table units and an identical
manifest (the embedded generator is a pure function of the table IR). -/
theorem claim_C9 (tables1 tables2 : List Table) (h : tables1 = tables2) :
    generatorRun tables1 = generatorRun tables2 := by
  rw [h]

/-- Claim C9 witness: two runs on the two-table schema coincide. -/
theorem claim_C9_witness :
    generatorRun [usersTable, logsTable] = generatorRun [usersTable, logsTable] :=
  claim_C9 [usersTable, logsTable] [usersTable, logsTable] rfl

